import Mathlib

/-!
Verification of the AdhesioSense Flask backend (`src/backend/app.py`).

The backend is a small HTTP service with three routes.  The substantive
logic is:
  * `allowed_file`   — filename extension validation,
  * `preprocess_image` — resize / RGB-convert / normalize / expand-dims
                         pipeline over a decoded image,
  * `predict_adhesion` — the (mocked) prediction provider,
  * `predict`        — the `POST /predict` request handler,
  * `health_check`   — the `GET /health` endpoint.

Shallow embedding choices:
  * Pixel channel values are `Nat` (bytes, `≤ 255` where the PIL contract
    guarantees it); normalized tensor values are exact rationals `ℚ`.
  * The PIL library calls `Image.resize` and `Image.convert` are not code
    of this repository; they are modelled as parameters (`PILOps`) that may
    fail (`Except String`), with their documented behaviour captured by the
    `PILContract` predicate that theorems assume and witnesses instantiate.
  * The process-wide random draw `np.random.uniform(0.0, 1.0)` is modelled
    by passing the drawn `confidence : ℚ` as an explicit argument.
  * JSON response bodies are ordered association lists of `String × JVal`,
    matching the literal dictionaries in the source.
-/

/-- A JSON value as produced by the backend: strings, numbers and arrays. -/
inductive JVal where
  | s (v : String)
  | num (v : ℚ)
  | arr (v : List JVal)

/-- An HTTP response: a JSON object body (ordered key/value pairs, in the
order the source writes them) together with the HTTP status code. -/
structure HttpResponse where
  body : List (String × JVal)
  status : Nat

/-- The list of keys of a response body, in order. -/
def HttpResponse.keys (r : HttpResponse) : List String :=
  r.body.map Prod.fst

/-- An in-memory decoded image (the result of `PIL.Image.open`): its pixel
grid dimensions, its PIL mode string (for example `"RGB"`, `"L"`, `"RGBA"`),
the number of channels of that mode, and the channel data
(`pixel row col channel` is the stored byte value). -/
structure DecodedImage where
  height : Nat
  width : Nat
  mode : String
  channels : Nat
  pixel : Nat → Nat → Nat → Nat

/-- A 4-dimensional floating-point array, modelled with exact rational
entries; `val b r c ch` indexes batch, row, column, channel. -/
structure Tensor4 where
  batch : Nat
  height : Nat
  width : Nat
  channels : Nat
  val : Nat → Nat → Nat → Nat → ℚ

/-- The two PIL operations the preprocessing step calls.  They live outside
the repository, so they are parameters of the embedding; either may fail
(raise), which the source catches. -/
structure PILOps where
  resize : DecodedImage → Nat → Nat → Except String DecodedImage
  convertRGB : DecodedImage → Except String DecodedImage

/-- The documented behaviour of the PIL operations that the source relies
on: `resize (w, h)` yields an image of the requested size with the same
mode and channel count and byte-valued (`≤ 255`) channel data;
`convert "RGB"` yields a same-sized 3-channel `"RGB"` image with
byte-valued channel data. -/
def PILContract (pil : PILOps) : Prop :=
  (∀ img w h r, pil.resize img w h = .ok r →
      r.width = w ∧ r.height = h ∧ r.mode = img.mode ∧
      r.channels = img.channels ∧ ∀ i j ch, r.pixel i j ch ≤ 255) ∧
  (∀ img r, pil.convertRGB img = .ok r →
      r.width = img.width ∧ r.height = img.height ∧ r.mode = "RGB" ∧
      r.channels = 3 ∧ ∀ i j ch, r.pixel i j ch ≤ 255)

/-- A decoded image is well formed when its channel count matches its mode
the way PIL guarantees: mode `"RGB"` means exactly 3 channels. -/
def DecodedImage.WellFormed (img : DecodedImage) : Prop :=
  img.mode = "RGB" → img.channels = 3

/-- Models `np.array(image) / 255.0` followed by `np.expand_dims(-, axis=0)`:
turn the byte channel data of the image into rationals divided by 255 and
add a leading batch dimension of size 1. -/
def normalizeExpand (img : DecodedImage) : Tensor4 :=
  { batch := 1
    height := img.height
    width := img.width
    channels := img.channels
    val := fun _ r c ch => (img.pixel r c ch : ℚ) / 255 }

/-- Translation of `preprocess_image` from `src/backend/app.py`: resize to 224×224,
convert to `"RGB"` when the mode differs, normalize by 255 and expand the
batch dimension; any failure inside is re-raised with the message prefix
`"Image preprocessing failed: "`. -/
def preprocess_image (pil : PILOps) (image : DecodedImage) :
    Except String Tensor4 :=
  match
    (match pil.resize image 224 224 with
     | .error e => .error e
     | .ok image =>
         match
           (if image.mode ≠ "RGB" then pil.convertRGB image
            else .ok image) with
         | .error e => .error e
         | .ok image => .ok (normalizeExpand image) :
       Except String Tensor4) with
  | .ok t => .ok t
  | .error e => .error ("Image preprocessing failed: " ++ e)

/-- Translation of `ALLOWED_EXTENSIONS` from the source. -/
def ALLOWED_EXTENSIONS : List String := ["png", "jpg", "jpeg", "bmp"]

/-- Models the Python expression `filename.rsplit('.', 1)[1]`: the substring
after the last `'.'` of the string (meaningful only when a `'.'` is
present, which the caller checks first). -/
def afterLastDot (filename : String) : String :=
  String.mk ((filename.toList.reverse.takeWhile (fun c => c ≠ '.')).reverse)

/-- Models the Python method `str.lower()`: lowercase every character. -/
def lowerStr (s : String) : String :=
  String.mk (s.toList.map Char.toLower)

/-- Translation of `allowed_file` from the source:
`'.' in filename and filename.rsplit('.', 1)[1].lower() in ALLOWED_EXTENSIONS`. -/
def allowed_file (filename : String) : Bool :=
  filename.toList.contains '.' &&
    (ALLOWED_EXTENSIONS.contains (lowerStr (afterLastDot filename)))

/-- Translation of `predict_adhesion` from the source, with the uniform random draw passed
in as `confidence`.  The tensor argument is accepted and ignored, exactly
as in the placeholder implementation.  Returns
`(prediction_label, adhesion_prob, graph_data)`. -/
def predict_adhesion (confidence : ℚ) (_image_array : Tensor4) :
    String × ℚ × List ℚ :=
  let res :=
    if confidence > 1/2 then
      ("Yes", confidence, 1 - confidence)
    else
      ("No", confidence, 1 - confidence)
  let prediction_label := res.1
  let adhesion_prob := res.2.1
  let no_adhesion_prob := res.2.2
  let total := adhesion_prob + no_adhesion_prob
  let adhesion_prob := adhesion_prob / total
  let no_adhesion_prob := no_adhesion_prob / total
  let graph_data := [no_adhesion_prob, adhesion_prob]
  (prediction_label, adhesion_prob, graph_data)

/-- One uploaded file of a multipart request: declared filename and raw
byte content. -/
structure ReqFile where
  filename : String
  content : List Nat
deriving DecidableEq, Repr

/-- An inbound HTTP request, reduced to what the handler reads: the
mapping from form field names to uploaded files (`request.files`). -/
structure HttpRequest where
  files : List (String × ReqFile)
deriving DecidableEq, Repr

/-- Models `request.files[name]` and `name in request.files`: look up a
form field. -/
def HttpRequest.getFile (req : HttpRequest) (name : String) :
    Option ReqFile :=
  (req.files.find? (fun p => p.1 = name)).map Prod.snd

/-- The error body the handler attaches to every 400 and 500 response:
the error message plus placeholder zero-valued prediction fields, keys in
the order the source writes them. -/
def errorBody (msg : String) : List (String × JVal) :=
  [("error", .s msg),
   ("prediction", .s "Error"),
   ("probability", .num 0),
   ("graph_data", .arr [.num 0, .num 0])]

/-- The read-decode-preprocess-predict sequence inside the try block of
the handler (the statements after validation): read the file bytes, decode
them (`Image.open`), preprocess, predict.  Each step may raise, which the
handler catches. -/
def runPipeline (pil : PILOps)
    (decode : List Nat → Except String DecodedImage) (confidence : ℚ)
    (file : ReqFile) : Except String (String × ℚ × List ℚ) :=
  match decode file.content with
  | .error e => .error e
  | .ok image =>
      match preprocess_image pil image with
      | .error e => .error e
      | .ok processed => .ok (predict_adhesion confidence processed)

/-- The `POST /predict` handler from the source.  `pil` models the PIL
calls, `decode` models `Image.open(io.BytesIO(image_bytes))` (a call into
PIL that may raise), and `confidence` is the provider's random draw. -/
def predict (pil : PILOps) (decode : List Nat → Except String DecodedImage)
    (confidence : ℚ) (req : HttpRequest) : HttpResponse :=
  match req.getFile "image" with
  | none =>
      { body := errorBody "No image file provided", status := 400 }
  | some file =>
      if file.filename = "" then
        { body := errorBody "No file selected", status := 400 }
      else if ¬ allowed_file file.filename then
        { body := errorBody
            "Invalid file type. Allowed types: PNG, JPG, JPEG, BMP"
          status := 400 }
      else
        match runPipeline pil decode confidence file with
        | .ok (prediction, probability, graph_data) =>
            { body := [("prediction", .s prediction),
                       ("probability", .num probability),
                       ("graph_data", .arr (graph_data.map .num)),
                       ("message", .s "Prediction successful")]
              status := 200 }
        | .error e =>
            { body := errorBody ("Internal server error: " ++ e)
              status := 500 }

/-- The `GET /health` handler from the source. -/
def health_check : HttpResponse :=
  { body := [("status", .s "healthy"),
             ("message", .s "AdhesioSense AI Server is running"),
             ("version", .s "1.0.0")]
    status := 200 }

/-! ### Concrete fixtures used by witness and counterexample theorems -/

/-- A concrete instantiation of the PIL operations satisfying
`PILContract`: resampling and conversion always succeed and produce
all-zero pixel data. -/
def pilOk : PILOps :=
  { resize := fun img w h =>
      .ok { height := h, width := w, mode := img.mode,
            channels := img.channels, pixel := fun _ _ _ => 0 }
    convertRGB := fun img =>
      .ok { height := img.height, width := img.width, mode := "RGB",
            channels := 3, pixel := fun _ _ _ => 0 } }

/-- A concrete decoder that always yields a small greyscale image. -/
def decodeOk : List Nat → Except String DecodedImage :=
  fun _ => .ok { height := 10, width := 7, mode := "L", channels := 1,
                 pixel := fun _ _ _ => 17 }

/-- A concrete decoder that always fails, as `PIL.Image.open` does on
bytes that are not a valid image. -/
def decodeFail : List Nat → Except String DecodedImage :=
  fun _ => .error "cannot identify image file"

/-- A concrete greyscale input image fixture. -/
def imgGrey : DecodedImage :=
  { height := 10, width := 7, mode := "L", channels := 1,
    pixel := fun _ _ _ => 17 }

/-- A concrete request carrying a file named image with a valid filename. -/
def reqPng : HttpRequest :=
  { files := [("image", { filename := "photo.png", content := [1, 2, 3] })] }

/-- A concrete request carrying a file named image with a gif filename. -/
def reqGif : HttpRequest :=
  { files := [("image", { filename := "photo.gif", content := [1, 2, 3] })] }

/-- The concrete PIL operations `pilOk` satisfy the PIL contract. -/
theorem pilOk_contract : PILContract pilOk := by
  constructor
  · intro img w h r hr
    simp only [pilOk] at hr
    cases hr
    exact ⟨rfl, rfl, rfl, rfl, fun _ _ _ => Nat.zero_le 255⟩
  · intro img r hr
    simp only [pilOk] at hr
    cases hr
    exact ⟨rfl, rfl, rfl, rfl, fun _ _ _ => Nat.zero_le 255⟩

/-! ### Claim theorems -/

/-- C7: the GET /health endpoint is a constant function of no input: it
always returns HTTP 200 with exactly the JSON body
status "healthy", message "AdhesioSense AI Server is running",
version "1.0.0". -/
theorem health_check_constant :
    health_check.status = 200 ∧
    health_check.body =
      [("status", JVal.s "healthy"),
       ("message", JVal.s "AdhesioSense AI Server is running"),
       ("version", JVal.s "1.0.0")] :=
  ⟨rfl, rfl⟩

/-- C10: a filename that is only a dot followed by an allowed extension,
such as ".png" (empty basename), is accepted by `allowed_file`, while a
filename ending in a dot, such as "photo." (empty substring after the last
dot), is rejected. -/
theorem allowed_file_dot_edge_cases :
    allowed_file ".png" = true ∧ allowed_file "photo." = false := by
  decide

/-- C3: every `predict_adhesion` result carries a `graph_data` vector of
exactly two entries that sums exactly to 1 in exact rational arithmetic
after the renormalization step; its first entry is the negative-class
(no-adhesion) probability `1 - confidence` and its second entry equals the
scalar positive-class probability the function returns. -/
theorem graph_data_sums_to_one (confidence : ℚ) (t : Tensor4) :
    ((predict_adhesion confidence t).2.2).length = 2 ∧
    ((predict_adhesion confidence t).2.2).getD 0 0 +
      ((predict_adhesion confidence t).2.2).getD 1 0 = 1 ∧
    ((predict_adhesion confidence t).2.2).getD 0 0 = 1 - confidence ∧
    ((predict_adhesion confidence t).2.2).getD 1 0 =
      (predict_adhesion confidence t).2.1 := by
  have htot : confidence + (1 - confidence) = 1 := by ring
  unfold predict_adhesion
  split <;> simp [htot]

/-- C2: for a confidence drawn in the unit interval, `predict_adhesion`
labels "Yes" with positive-class probability equal to the confidence when
the confidence exceeds 1/2, and otherwise labels "No" with negative-class
probability `1 - confidence`; it returns the triple of label, positive
probability and the vector of negative then positive probability, so the
second `graph_data` entry always equals the returned probability. -/
theorem predict_adhesion_branch_spec (confidence : ℚ) (t : Tensor4)
    (h0 : 0 ≤ confidence) (h1 : confidence ≤ 1) :
    (confidence > 1/2 →
      (predict_adhesion confidence t).1 = "Yes" ∧
      (predict_adhesion confidence t).2.1 = confidence) ∧
    (¬ confidence > 1/2 →
      (predict_adhesion confidence t).1 = "No" ∧
      ((predict_adhesion confidence t).2.2).getD 0 0 = 1 - confidence) ∧
    (predict_adhesion confidence t).2.2 =
      [1 - confidence, (predict_adhesion confidence t).2.1] ∧
    ((predict_adhesion confidence t).2.2).getD 1 0 =
      (predict_adhesion confidence t).2.1 := by
  have htot : confidence + (1 - confidence) = 1 := by ring
  unfold predict_adhesion
  split <;> simp_all [htot]

/-- Witness for C2 at the concrete confidence 3/4 (the "Yes" branch). -/
theorem predict_adhesion_branch_spec_witness :
    (0 : ℚ) ≤ 3/4 ∧ (3/4 : ℚ) ≤ 1 ∧ (3/4 : ℚ) > 1/2 ∧
    (predict_adhesion (3/4)
        { batch := 1, height := 224, width := 224, channels := 3,
          val := fun _ _ _ _ => 0 }).1 = "Yes" ∧
    (predict_adhesion (3/4)
        { batch := 1, height := 224, width := 224, channels := 3,
          val := fun _ _ _ _ => 0 }).2.1 = 3/4 := by
  have h := predict_adhesion_branch_spec (3/4)
    { batch := 1, height := 224, width := 224, channels := 3,
      val := fun _ _ _ _ => 0 } (by norm_num) (by norm_num)
  exact ⟨by norm_num, by norm_num, by norm_num,
    (h.1 (by norm_num)).1, (h.1 (by norm_num)).2⟩

/-- C4: the first two validation checks run in order and short-circuit:
with no form field named image the handler returns exactly HTTP 400 with
error "No image file provided", and with the field present but an empty
filename it returns exactly HTTP 400 with error "No file selected"; both
responses are independent of the PIL operations, the decoder and the
drawn confidence, so no preprocessing or prediction is invoked. -/
theorem validation_short_circuits (pil : PILOps)
    (decode : List Nat → Except String DecodedImage) (confidence : ℚ)
    (req : HttpRequest) :
    (req.getFile "image" = none →
       predict pil decode confidence req =
         { body := errorBody "No image file provided", status := 400 }) ∧
    (∀ f, req.getFile "image" = some f → f.filename = "" →
       predict pil decode confidence req =
         { body := errorBody "No file selected", status := 400 }) := by
  constructor
  · intro h
    simp [predict, h]
  · intro f hf hname
    simp [predict, hf, hname]

/-- Witness for C4: a concrete request with no files, and one whose image
field has the empty filename. -/
theorem validation_short_circuits_witness :
    predict pilOk decodeOk 0 { files := [] } =
      { body := errorBody "No image file provided", status := 400 } ∧
    predict pilOk decodeOk 0
        { files := [("image", { filename := "", content := [] })] } =
      { body := errorBody "No file selected", status := 400 } :=
  ⟨(validation_short_circuits pilOk decodeOk 0 { files := [] }).1 rfl,
   (validation_short_circuits pilOk decodeOk 0
       { files := [("image", { filename := "", content := [] })] }).2
     { filename := "", content := [] } rfl rfl⟩

/-- C5: the extension check accepts a filename exactly when it contains a
dot and the lowercased substring after its last dot is one of png, jpg,
jpeg, bmp; a dotless filename is rejected by the same check, and every
request whose non-empty filename fails the check is answered with exactly
HTTP 400 and the invalid-file-type error — the same response for a
disallowed extension as for a dotless filename. -/
theorem extension_check_spec (pil : PILOps)
    (decode : List Nat → Except String DecodedImage) (confidence : ℚ)
    (req : HttpRequest) (f : ReqFile)
    (hget : req.getFile "image" = some f) (hname : f.filename ≠ "") :
    (allowed_file f.filename = true ↔
       f.filename.toList.contains '.' = true ∧
       lowerStr (afterLastDot f.filename) ∈ ALLOWED_EXTENSIONS) ∧
    (f.filename.toList.contains '.' = false →
       allowed_file f.filename = false) ∧
    (allowed_file f.filename = false →
       predict pil decode confidence req =
         { body := errorBody
             "Invalid file type. Allowed types: PNG, JPG, JPEG, BMP"
           status := 400 }) := by
  refine ⟨?_, ?_, ?_⟩
  · simp [allowed_file]
  · intro h
    simp only [allowed_file, h, Bool.false_and]
  · intro h
    simp [predict, hget, hname, h]

/-- Witness for C5: the disallowed extension gif and the dotless filename
README are both rejected, with identical 400 responses. -/
theorem extension_check_spec_witness :
    allowed_file "photo.gif" = false ∧
    allowed_file "README" = false ∧
    predict pilOk decodeOk 0 reqGif =
      { body := errorBody
          "Invalid file type. Allowed types: PNG, JPG, JPEG, BMP"
        status := 400 } ∧
    predict pilOk decodeOk 0
        { files := [("image", { filename := "README", content := [] })] } =
      { body := errorBody
          "Invalid file type. Allowed types: PNG, JPG, JPEG, BMP"
        status := 400 } := by
  have h1 := extension_check_spec pilOk decodeOk 0 reqGif
    { filename := "photo.gif", content := [1, 2, 3] } rfl (by decide)
  have h2 := extension_check_spec pilOk decodeOk 0
    { files := [("image", { filename := "README", content := [] })] }
    { filename := "README", content := [] } rfl (by decide)
  exact ⟨by decide, by decide, h1.2.2 (by decide), h2.2.2 (by decide)⟩

/-- C8: once validation passes, any failure raised by the
read-decode-preprocess-predict pipeline is caught at the request boundary
and converted to exactly HTTP 500 with error
"Internal server error: <cause>" and placeholder zero-valued prediction
fields; the raw failure never escapes as a response of its own. -/
theorem pipeline_failure_to_500 (pil : PILOps)
    (decode : List Nat → Except String DecodedImage) (confidence : ℚ)
    (req : HttpRequest) (f : ReqFile) (e : String)
    (hget : req.getFile "image" = some f) (hname : f.filename ≠ "")
    (hallow : allowed_file f.filename = true)
    (herr : runPipeline pil decode confidence f = .error e) :
    predict pil decode confidence req =
      { body := [("error", JVal.s ("Internal server error: " ++ e)),
                 ("prediction", JVal.s "Error"),
                 ("probability", JVal.num 0),
                 ("graph_data", JVal.arr [JVal.num 0, JVal.num 0])]
        status := 500 } := by
  simp [predict, hget, hname, hallow, herr, errorBody]

/-- Witness for C8: a decoder that fails on the bytes of a validly named
upload produces the 500 internal-server-error envelope. -/
theorem pipeline_failure_to_500_witness :
    predict pilOk decodeFail 0 reqPng =
      { body := [("error",
                   JVal.s ("Internal server error: " ++
                     "cannot identify image file")),
                 ("prediction", JVal.s "Error"),
                 ("probability", JVal.num 0),
                 ("graph_data", JVal.arr [JVal.num 0, JVal.num 0])]
        status := 500 } :=
  pipeline_failure_to_500 pilOk decodeFail 0 reqPng
    { filename := "photo.png", content := [1, 2, 3] }
    "cannot identify image file" rfl (by decide) (by decide) rfl

/-- C6 counterexample: a concrete request that passes validation and
predicts successfully is answered with HTTP 200 whose body has no
error key at all, so it is not the case that every response of the
handler contains all four keys error, prediction, probability,
graph_data. -/
theorem success_response_lacks_error_key :
    (predict pilOk decodeOk (3/4) reqPng).status = 200 ∧
    "error" ∉ (predict pilOk decodeOk (3/4) reqPng).keys := by
  constructor
  · rfl
  · have hk : (predict pilOk decodeOk (3/4) reqPng).keys =
        ["prediction", "probability", "graph_data", "message"] := rfl
    rw [hk]
    decide

/-- C6 (amended): every 400 and 500 response of the predict handler has
exactly the four keys error, prediction, probability, graph_data, while a
successful 200 response has exactly the keys prediction, probability,
graph_data, message — the error key is absent from success responses. -/
theorem response_keys_by_status (pil : PILOps)
    (decode : List Nat → Except String DecodedImage) (confidence : ℚ)
    (req : HttpRequest) :
    ((predict pil decode confidence req).status = 200 ∧
       (predict pil decode confidence req).keys =
         ["prediction", "probability", "graph_data", "message"]) ∨
    (((predict pil decode confidence req).status = 400 ∨
        (predict pil decode confidence req).status = 500) ∧
       (predict pil decode confidence req).keys =
         ["error", "prediction", "probability", "graph_data"]) := by
  unfold predict
  cases hget : req.getFile "image" with
  | none => simp [HttpResponse.keys, errorBody]
  | some f =>
      by_cases hname : f.filename = ""
      · simp [hname, HttpResponse.keys, errorBody]
      · by_cases hallow : allowed_file f.filename = true
        · cases hrun : runPipeline pil decode confidence f with
          | ok p =>
              obtain ⟨a, b, c⟩ := p
              simp [hname, hallow, hrun, HttpResponse.keys]
          | error e =>
              simp [hname, hallow, hrun, HttpResponse.keys, errorBody]
        · have hfalse : allowed_file f.filename = false := by
            cases hb : allowed_file f.filename
            · rfl
            · exact absurd hb hallow
          simp [hname, hfalse, HttpResponse.keys, errorBody]

/-- Entries of a normalized image tensor lie in the unit interval when the
channel data are bytes. -/
theorem normalizeExpand_val_mem_unit (img : DecodedImage)
    (hb : ∀ r c ch, img.pixel r c ch ≤ 255) (b r c ch : Nat) :
    0 ≤ (normalizeExpand img).val b r c ch ∧
    (normalizeExpand img).val b r c ch ≤ 1 := by
  simp only [normalizeExpand]
  constructor
  · positivity
  · rw [div_le_one (by norm_num)]
    exact_mod_cast hb r c ch

/-- C1: under the PIL contract and for a well-formed input image of any
dimensions and mode, whenever `preprocess_image` succeeds the resulting
tensor has shape (1, 224, 224, 3) and every entry lies in the closed
interval [0, 1]; moreover the output arises by, in order, resizing to
224×224, converting the result to RGB when its mode differs, and dividing
the byte values by 255 while adding the leading batch dimension of
size 1. -/
theorem preprocess_image_spec (pil : PILOps) (img : DecodedImage)
    (t : Tensor4) (hpil : PILContract pil) (hwf : img.WellFormed)
    (hok : preprocess_image pil img = .ok t) :
    (t.batch = 1 ∧ t.height = 224 ∧ t.width = 224 ∧ t.channels = 3) ∧
    (∀ b r c ch, 0 ≤ t.val b r c ch ∧ t.val b r c ch ≤ 1) ∧
    (∃ resized rgb, pil.resize img 224 224 = .ok resized ∧
       ((resized.mode ≠ "RGB" ∧ pil.convertRGB resized = .ok rgb) ∨
        (resized.mode = "RGB" ∧ rgb = resized)) ∧
       t = normalizeExpand rgb) := by
  obtain ⟨hres, hconv⟩ := hpil
  unfold preprocess_image at hok
  cases hr : pil.resize img 224 224 with
  | error e =>
      rw [hr] at hok
      exact absurd hok (by simp)
  | ok resized =>
      rw [hr] at hok
      obtain ⟨hW, hH, hM, hC, hPx⟩ := hres img 224 224 resized hr
      by_cases hmode : resized.mode = "RGB"
      · simp only [hmode, ne_eq, not_true_eq_false, if_false] at hok
        have ht : normalizeExpand resized = t := by
          simpa using hok
        subst ht
        refine ⟨⟨rfl, by simpa [normalizeExpand] using hH,
                 by simpa [normalizeExpand] using hW, ?_⟩,
                fun b r c ch => normalizeExpand_val_mem_unit resized hPx b r c ch,
                resized, resized, rfl, Or.inr ⟨hmode, rfl⟩, rfl⟩
        have himg : img.mode = "RGB" := hM ▸ hmode
        simp only [normalizeExpand]
        rw [hC]
        exact hwf himg
      · simp only [hmode, ne_eq, not_false_eq_true, if_true] at hok
        cases hc : pil.convertRGB resized with
        | error e =>
            rw [hc] at hok
            exact absurd hok (by simp)
        | ok rgb =>
            rw [hc] at hok
            obtain ⟨hW2, hH2, hM2, hC2, hPx2⟩ := hconv resized rgb hc
            have ht : normalizeExpand rgb = t := by
              simpa using hok
            subst ht
            refine ⟨⟨rfl, ?_, ?_, ?_⟩,
                    fun b r c ch => normalizeExpand_val_mem_unit rgb hPx2 b r c ch,
                    resized, rgb, rfl, Or.inl ⟨hmode, hc⟩, rfl⟩
            · simp only [normalizeExpand]
              rw [hH2, hH]
            · simp only [normalizeExpand]
              rw [hW2, hW]
            · simp only [normalizeExpand]
              exact hC2

/-- The tensor produced by running the fixture pipeline on the greyscale
fixture image. -/
def tGrey : Tensor4 :=
  normalizeExpand { height := 224, width := 224, mode := "RGB",
                    channels := 3, pixel := fun _ _ _ => 0 }

/-- Witness for C1: the fixture PIL operations on a concrete greyscale
image, with all hypotheses discharged concretely. -/
theorem preprocess_image_spec_witness :
    (tGrey.batch = 1 ∧ tGrey.height = 224 ∧ tGrey.width = 224 ∧
       tGrey.channels = 3) ∧
    (∀ b r c ch, 0 ≤ tGrey.val b r c ch ∧ tGrey.val b r c ch ≤ 1) ∧
    (∃ resized rgb, pilOk.resize imgGrey 224 224 = .ok resized ∧
       ((resized.mode ≠ "RGB" ∧ pilOk.convertRGB resized = .ok rgb) ∨
        (resized.mode = "RGB" ∧ rgb = resized)) ∧
       tGrey = normalizeExpand rgb) :=
  preprocess_image_spec pilOk imgGrey tGrey pilOk_contract
    (by intro hmode; exact absurd hmode (by decide)) rfl

/-- C9: `preprocess_image` is a deterministic pure function of its input
image: for a fixed set of PIL operations, two runs on extensionally equal
decoded images produce identical outputs, the same tensor or the same
error. -/
theorem preprocess_image_deterministic (pil : PILOps)
    (img1 img2 : DecodedImage)
    (hh : img1.height = img2.height) (hw : img1.width = img2.width)
    (hm : img1.mode = img2.mode) (hc : img1.channels = img2.channels)
    (hp : ∀ r c ch, img1.pixel r c ch = img2.pixel r c ch) :
    preprocess_image pil img1 = preprocess_image pil img2 := by
  have heq : img1 = img2 := by
    obtain ⟨h1, w1, m1, c1, p1⟩ := img1
    obtain ⟨h2, w2, m2, c2, p2⟩ := img2
    simp only [DecodedImage.mk.injEq]
    refine ⟨hh, hw, hm, hc, ?_⟩
    funext r c ch
    exact hp r c ch
  rw [heq]

/-- Witness for C9: two syntactically different but extensionally equal
fixture images give identical preprocessing results. -/
theorem preprocess_image_deterministic_witness :
    preprocess_image pilOk imgGrey =
      preprocess_image pilOk
        { height := 10, width := 7, mode := "L", channels := 1,
          pixel := fun _ _ _ => 16 + 1 } :=
  preprocess_image_deterministic pilOk imgGrey
    { height := 10, width := 7, mode := "L", channels := 1,
      pixel := fun _ _ _ => 16 + 1 }
    rfl rfl rfl rfl (fun _ _ _ => rfl)
